import Mathlib

/-!
Shallow embedding of `src/macros/src/pubsub.rs` (typed PUB-SUB adapter):
`Subscriber<T>` and `Sink<T>` with its single-slot buffered-send state
machine over an untyped notification channel.

The underlying channel (`jsonrpc_pubsub::Sink` / `jsonrpc_pubsub::Subscriber`)
is code of this repository that is not under `src/`; it is modelled from the
spec (section 6, External Interfaces) as an explicit state: a script of
responses consumed by successive `try_send` calls, a log of items the channel
accepted (in order), and a log of every `try_send` attempt.

Serialization (`util::to_value`, serde) is external; it is a parameter
`to_value : T → V` where `V` stands for the serialized JSON value type.
All state mutation in the Rust source (`&mut self`) becomes explicit state
passing: each operation returns its result together with the updated
`Sink` and channel states.
-/

namespace PubsubMacros

/-- Modelled from the spec: the transport-error kind carried by fallible
operations of the raw channel handle (`jsonrpc_pubsub::TransportError`,
not under `src/`). -/
structure TransportError where
  code : Nat
deriving DecidableEq, Repr

/-- `jsonrpc_core::Params` as used by the source: only the `Array`
constructor is ever built (`pubsub.rs` line 66). `V` is the serialized
value type. -/
inductive Params (V : Type) where
  | array : List V → Params V
deriving DecidableEq, Repr

/-- `futures::Async`: readiness of a polled operation. -/
inductive Async where
  | ready
  | notReady
deriving DecidableEq, Repr

/-- `futures::AsyncSink`: result of a sink send attempt; `notReady`
returns the item to the caller unconsumed. -/
inductive AsyncSink (I : Type) where
  | ready
  | notReady (item : I)
deriving DecidableEq, Repr

/-- `jsonrpc_pubsub::SubscriptionId`: an opaque, cloneable, comparable id. -/
inductive SubscriptionId where
  | number (n : Nat)
  | str (s : String)
deriving DecidableEq, Repr

/-- Modelled from the spec: one response of the raw channel handle to a
`try_send` call: `Accepted`, `NotReady(item_returned)`, or a transport
failure. -/
inductive ChanResp where
  | accepted
  | notReady
  | fail (e : TransportError)
deriving DecidableEq, Repr

/-- Modelled from the spec: the raw (untyped) notification channel handle
(`jsonrpc_pubsub::Sink`, not under `src/`).  `sendResps` is the script of
responses consumed one per `try_send` call (an empty script means the
channel accepts); `sent` logs the items the channel accepted, in order;
`attempts` logs every item ever offered via `try_send`, whatever the
outcome; `flushResp` and `closeResp` are the results the channel's own
`poll_complete` and `close` report. -/
structure Chan (V : Type) where
  sendResps : List ChanResp
  sent : List (String × Params V)
  attempts : List (String × Params V)
  flushResp : Except TransportError Async
  closeResp : Except TransportError Async

/-- Modelled from the spec: the raw channel's non-blocking send primitive
`try_send(name, params) -> {Accepted | NotReady(item_returned)}`, fallible
with a transport error.  Consumes the head of the response script. -/
def Chan.try_send {V : Type} (c : Chan V) (item : String × Params V) :
    Except TransportError (AsyncSink (String × Params V)) × Chan V :=
  let c0 := { c with attempts := c.attempts ++ [item] }
  match c.sendResps with
  | [] => (Except.ok AsyncSink.ready, { c0 with sent := c0.sent ++ [item] })
  | ChanResp.accepted :: rest =>
      (Except.ok AsyncSink.ready,
        { c0 with sendResps := rest, sent := c0.sent ++ [item] })
  | ChanResp.notReady :: rest =>
      (Except.ok (AsyncSink.notReady item), { c0 with sendResps := rest })
  | ChanResp.fail e :: rest =>
      (Except.error e, { c0 with sendResps := rest })

/-- The response the next `try_send` call will consume (an empty script
defaults to accepting). -/
def Chan.nextResp {V : Type} (c : Chan V) : ChanResp :=
  c.sendResps.headD ChanResp.accepted

/-- Modelled from the spec: the raw channel's own flush
(`poll_complete`). -/
def Chan.poll_complete {V : Type} (c : Chan V) :
    Except TransportError Async × Chan V :=
  (c.flushResp, c)

/-- Modelled from the spec: the raw channel's own `close`. -/
def Chan.close {V : Type} (c : Chan V) :
    Except TransportError Async × Chan V :=
  (c.closeResp, c)

/-- `Sink<T>` (`pubsub.rs` lines 50–56): the assigned subscription id and
the single buffered slot `Option<(String, core::Params)>`.  The raw
channel handle (`sink` field in Rust) is shared state and is passed
explicitly to each operation instead of being stored. -/
structure Sink (V : Type) where
  id : SubscriptionId
  buffered : Option (String × Params V)
deriving DecidableEq, Repr

/-- `Sink::val_to_params` (`pubsub.rs` lines 64–67): wrap the serialized
value as a one-element parameter array. -/
def val_to_params {T V : Type} (to_value : T → V) (val : T) : Params V :=
  Params.array [to_value val]

/-- `Sink::notify` (`pubsub.rs` lines 60–62): serialize and forward
directly to the underlying channel; `&self`, so the sink state (including
the buffered slot) cannot change and is not returned. -/
def Sink.notify {T V : Type} (to_value : T → V) (_s : Sink V) (c : Chan V)
    (name : String) (val : T) :
    Except TransportError (AsyncSink (String × Params V)) × Chan V :=
  c.try_send (name, val_to_params to_value val)

/-- `Sink::poll` (`pubsub.rs` lines 69–82): the drain step.  Take the
buffered item if any, offer it to the underlying channel; on `NotReady`
put the returned item back; a transport error propagates after the take
(the slot stays empty).  Report `Ready` iff the slot ends empty. -/
def Sink.poll {V : Type} (s : Sink V) (c : Chan V) :
    Except TransportError Async × Sink V × Chan V :=
  match s.buffered with
  | some item =>
    match c.try_send item with
    | (Except.error e, c1) => (Except.error e, { s with buffered := none }, c1)
    | (Except.ok (AsyncSink.notReady item1), c1) =>
        (Except.ok Async.notReady, { s with buffered := some item1 }, c1)
    | (Except.ok AsyncSink.ready, c1) =>
        (Except.ok Async.ready, { s with buffered := none }, c1)
  | none => (Except.ok Async.ready, s, c)

/-- `Sink::start_send` (`pubsub.rs` lines 89–102): drain first; if still
not ready, give the item back; otherwise serialize, buffer it, drain once
more opportunistically and report the item accepted. -/
def Sink.start_send {T V : Type} (to_value : T → V) (s : Sink V) (c : Chan V)
    (item : String × T) :
    Except TransportError (AsyncSink (String × T)) × Sink V × Chan V :=
  match s.poll c with
  | (Except.error e, s1, c1) => (Except.error e, s1, c1)
  | (Except.ok Async.notReady, s1, c1) =>
      (Except.ok (AsyncSink.notReady item), s1, c1)
  | (Except.ok Async.ready, s1, c1) =>
    let val := val_to_params to_value item.2
    let s2 := { s1 with buffered := some (item.1, val) }
    match s2.poll c1 with
    | (Except.error e, s3, c2) => (Except.error e, s3, c2)
    | (Except.ok _, s3, c2) => (Except.ok (AsyncSink.ready), s3, c2)

/-- `Sink::poll_complete` (`pubsub.rs` lines 104–107): drain, then
delegate to the underlying channel's `poll_complete`. -/
def Sink.poll_complete {V : Type} (s : Sink V) (c : Chan V) :
    Except TransportError Async × Sink V × Chan V :=
  match s.poll c with
  | (Except.error e, s1, c1) => (Except.error e, s1, c1)
  | (Except.ok _, s1, c1) =>
    let rc := c1.poll_complete
    (rc.1, s1, rc.2)

/-- `Sink::close` (`pubsub.rs` lines 109–112): drain, then delegate to
the underlying channel's `close`. -/
def Sink.close {V : Type} (s : Sink V) (c : Chan V) :
    Except TransportError Async × Sink V × Chan V :=
  match s.poll c with
  | (Except.error e, s1, c1) => (Except.error e, s1, c1)
  | (Except.ok _, s1, c1) =>
    let rc := c1.close
    (rc.1, s1, rc.2)

/-- `#[derive(Clone)]` on `Sink` (`pubsub.rs` line 50): field-wise copy;
the buffered slot is duplicated by value, the channel handle is a shared
reference (here: the same external `Chan` state). -/
def Sink.clone {V : Type} (s : Sink V) : Sink V := s

/-- Modelled from the spec: the raw subscription-negotiation handle
(`jsonrpc_pubsub::Subscriber`, not under `src/`).  `connected` says
whether the underlying connection is still open; `chan` is the raw
channel handle `assign_id` hands out on success. -/
structure RawSubscriber (V : Type) where
  connected : Bool
  chan : Chan V

/-- Modelled from the spec: `assign_id(id) -> Result<RawChannelHandle, ()>`;
fails when the connection already closed. -/
def RawSubscriber.assign_id {V : Type} (r : RawSubscriber V)
    (_id : SubscriptionId) : Except Unit (Chan V) :=
  if r.connected then Except.ok r.chan else Except.error ()

/-- `Subscriber<T>` (`pubsub.rs` lines 16–19): wraps the raw handle. -/
structure Subscriber (V : Type) where
  subscriber : RawSubscriber V

/-- `Subscriber::assign_id` (`pubsub.rs` lines 38–46): bind the id via the
raw handle; on success produce a `Sink` with the given id and an empty
buffer (together with the raw channel handle it wraps). -/
def Subscriber.assign_id {V : Type} (sub : Subscriber V)
    (id : SubscriptionId) : Except Unit (Sink V × Chan V) :=
  match sub.subscriber.assign_id id with
  | Except.error e => Except.error e
  | Except.ok sk => Except.ok ({ id := id, buffered := none }, sk)

/-- Iterated `start_send` (driving the sink as the spec's scheduler does):
process the items in order, stopping at the first transport error. -/
def run_start_sends {T V : Type} (to_value : T → V) :
    List (String × T) → Sink V → Chan V →
    Except TransportError (Sink V × Chan V)
  | [], s, c => Except.ok (s, c)
  | item :: rest, s, c =>
    match Sink.start_send to_value s c item with
    | (Except.error e, _, _) => Except.error e
    | (Except.ok _, s', c') => run_start_sends to_value rest s' c'

/-- Number of items held by the buffered slot. -/
def slotCount {V : Type} (b : Option (String × Params V)) : Nat :=
  match b with
  | none => 0
  | some _ => 1

/-! Sample concrete states used by the witness theorems. -/

/-- A channel whose script is empty (accepts everything), with empty logs. -/
def chanAcc : Chan Nat :=
  { sendResps := [], sent := [], attempts := [],
    flushResp := Except.ok Async.ready, closeResp := Except.ok Async.ready }

/-- A channel that answers `NotReady` to the first `try_send`. -/
def chanNR : Chan Nat :=
  { chanAcc with sendResps := [ChanResp.notReady] }

/-- A channel whose first `try_send` fails with transport error 7. -/
def chanErr : Chan Nat :=
  { chanAcc with sendResps := [ChanResp.fail ⟨7⟩] }

/-- A sink with an empty buffer. -/
def sinkEmpty : Sink Nat :=
  { id := SubscriptionId.number 1, buffered := none }

/-- A sink whose buffer holds `("foo", serialized 1)`. -/
def sinkFull : Sink Nat :=
  { id := SubscriptionId.number 1,
    buffered := some ("foo", Params.array [(1 : Nat)]) }

/-! ## Theorems -/

/-- **C2** — When the buffer is `Full` and the underlying channel refuses
the buffered item (next response is `NotReady`), `start_send` with a new
item returns `AsyncSink::NotReady` carrying that new item back unconsumed,
and the previously buffered item stays in the buffer unchanged; nothing
reaches the channel's accepted log. -/
theorem start_send_full_notReady_rejects {T V : Type} (to_value : T → V)
    (s : Sink V) (c : Chan V) (b : String × Params V) (item : String × T)
    (hb : s.buffered = some b) (hr : c.nextResp = ChanResp.notReady) :
    (Sink.start_send to_value s c item).1
        = Except.ok (AsyncSink.notReady item) ∧
    (Sink.start_send to_value s c item).2.1.buffered = some b ∧
    (Sink.start_send to_value s c item).2.2.sent = c.sent := by
  cases c with
  | mk resps sent atts fr cr =>
    cases resps with
    | nil => simp [Chan.nextResp] at hr
    | cons r rest =>
      simp [Chan.nextResp] at hr
      subst hr
      simp [Sink.start_send, Sink.poll, Chan.try_send, hb]

/-- Witness for C2: scenario C of the spec at concrete values. -/
theorem start_send_full_notReady_rejects_witness :
    (Sink.start_send (fun n => n) sinkFull chanNR ("bar", (2 : Nat))).1
        = Except.ok (AsyncSink.notReady ("bar", 2)) ∧
    (Sink.start_send (fun n => n) sinkFull chanNR ("bar", (2 : Nat))).2.1.buffered
        = some ("foo", Params.array [1]) ∧
    (Sink.start_send (fun n => n) sinkFull chanNR ("bar", (2 : Nat))).2.2.sent
        = chanNR.sent :=
  start_send_full_notReady_rejects (fun n => n) sinkFull chanNR
    ("foo", Params.array [1]) ("bar", 2) rfl rfl

/-- **C5** — Whatever the buffer state, `poll_complete` first runs the
drain step and then delegates to the underlying channel's
`poll_complete`, returning the underlying result; `close` does the same
with the underlying `close`. -/
theorem poll_complete_close_delegate {V : Type} (s : Sink V) (c : Chan V)
    (a : Async) (s1 : Sink V) (c1 : Chan V)
    (hp : Sink.poll s c = (Except.ok a, s1, c1)) :
    Sink.poll_complete s c = (c1.flushResp, s1, c1) ∧
    Sink.close s c = (c1.closeResp, s1, c1) := by
  constructor <;>
    simp [Sink.poll_complete, Sink.close, hp, Chan.poll_complete, Chan.close]

/-- Witness for C5 at a `Full` sink over a not-ready channel. -/
theorem poll_complete_close_delegate_witness :
    Sink.poll_complete sinkFull chanNR
      = (chanNR.flushResp, (Sink.poll sinkFull chanNR).2.1,
          (Sink.poll sinkFull chanNR).2.2) ∧
    Sink.close sinkFull chanNR
      = (chanNR.closeResp, (Sink.poll sinkFull chanNR).2.1,
          (Sink.poll sinkFull chanNR).2.2) :=
  poll_complete_close_delegate sinkFull chanNR Async.notReady
    (Sink.poll sinkFull chanNR).2.1 (Sink.poll sinkFull chanNR).2.2 rfl

/-- **C6** — `notify(name, v)` wraps `v` as a one-element parameter list,
forwards `(name, that list)` to the underlying channel unconditionally in
the same call, returns the channel's immediate result, and its behaviour
is independent of the sink's buffered slot (which it can not touch:
`notify` takes `&self` and returns no sink state). -/
theorem notify_forwards_unconditionally {T V : Type} (to_value : T → V)
    (s : Sink V) (c : Chan V) (name : String) (val : T) :
    Sink.notify to_value s c name val
        = c.try_send (name, Params.array [to_value val]) ∧
    (∃ l : List V, val_to_params to_value val = Params.array l ∧ l.length = 1) ∧
    (∀ s' : Sink V, Sink.notify to_value s' c name val
        = Sink.notify to_value s c name val) :=
  ⟨rfl, ⟨[to_value val], rfl, rfl⟩, fun _ => rfl⟩

/-- **C7** — `Subscriber::assign_id` succeeds exactly when the underlying
handle does: on success it yields a `Sink` with an empty buffer and the
given id (over the handle's channel); on failure it yields an error and
no sink. -/
theorem assign_id_produces_empty_sink {V : Type} (sub : Subscriber V)
    (id : SubscriptionId) :
    (sub.subscriber.connected = true →
      Subscriber.assign_id sub id
        = Except.ok ({ id := id, buffered := none }, sub.subscriber.chan)) ∧
    (sub.subscriber.connected = false →
      Subscriber.assign_id sub id = Except.error ()) := by
  constructor <;> intro h <;>
    simp [Subscriber.assign_id, RawSubscriber.assign_id, h]

/-- Witness for C7: a closed connection refuses, an open one yields the
empty-buffer sink with the requested id. -/
theorem assign_id_produces_empty_sink_witness :
    Subscriber.assign_id ⟨⟨true, chanAcc⟩⟩ (SubscriptionId.number 9)
        = Except.ok ({ id := SubscriptionId.number 9, buffered := none }, chanAcc) ∧
    Subscriber.assign_id (V := Nat) ⟨⟨false, chanAcc⟩⟩ (SubscriptionId.number 9)
        = Except.error () :=
  ⟨(assign_id_produces_empty_sink ⟨⟨true, chanAcc⟩⟩ (SubscriptionId.number 9)).1 rfl,
   (assign_id_produces_empty_sink ⟨⟨false, chanAcc⟩⟩ (SubscriptionId.number 9)).2 rfl⟩

/-- **C10** — With a `Full` buffer whose drain attempt is refused
(`NotReady`) but an underlying channel whose own `poll_complete` reports
`Ready`, `Sink::poll_complete` returns `Ready` even though the
undelivered item still sits in the buffer. -/
theorem poll_complete_ignores_local_buffer {V : Type} (s : Sink V)
    (c : Chan V) (b : String × Params V)
    (hb : s.buffered = some b) (hr : c.nextResp = ChanResp.notReady)
    (hf : c.flushResp = Except.ok Async.ready) :
    (Sink.poll_complete s c).1 = Except.ok Async.ready ∧
    (Sink.poll_complete s c).2.1.buffered = some b := by
  cases c with
  | mk resps sent atts fr cr =>
    cases resps with
    | nil => simp [Chan.nextResp] at hr
    | cons r rest =>
      simp [Chan.nextResp] at hr
      subst hr
      simp at hf
      simp [Sink.poll_complete, Sink.poll, Chan.try_send, Chan.poll_complete,
        hb, hf]

/-- Witness for C10 at a concrete full sink over a not-ready channel. -/
theorem poll_complete_ignores_local_buffer_witness :
    (Sink.poll_complete sinkFull chanNR).1 = Except.ok Async.ready ∧
    (Sink.poll_complete sinkFull chanNR).2.1.buffered
        = some ("foo", Params.array [1]) :=
  poll_complete_ignores_local_buffer sinkFull chanNR
    ("foo", Params.array [1]) rfl rfl rfl

/-- **C1** — Whenever the drain step yields `Ready` (empty buffer, or the
buffered item just got accepted), `start_send(name, v)` serializes `v`,
buffers `(name, serialized params)`, runs one more drain step and returns
`AsyncSink::Ready` whether or not that opportunistic drain flushed: if
the channel then answers `NotReady` the buffer ends `Full` holding the
serialized item (nothing newly accepted), and if it accepts the buffer
ends `Empty` with the item appended to the channel's accepted log. -/
theorem start_send_ready_accepts {T V : Type} (to_value : T → V)
    (s : Sink V) (c : Chan V) (name : String) (v : T)
    (s1 : Sink V) (c1 : Chan V)
    (hp : Sink.poll s c = (Except.ok Async.ready, s1, c1)) :
    (c1.nextResp = ChanResp.notReady →
      (Sink.start_send to_value s c (name, v)).1 = Except.ok AsyncSink.ready ∧
      (Sink.start_send to_value s c (name, v)).2.1.buffered
          = some (name, Params.array [to_value v]) ∧
      (Sink.start_send to_value s c (name, v)).2.2.sent = c1.sent) ∧
    (c1.nextResp = ChanResp.accepted →
      (Sink.start_send to_value s c (name, v)).1 = Except.ok AsyncSink.ready ∧
      (Sink.start_send to_value s c (name, v)).2.1.buffered = none ∧
      (Sink.start_send to_value s c (name, v)).2.2.sent
          = c1.sent ++ [(name, Params.array [to_value v])]) := by
  cases c1 with
  | mk resps sent atts fr cr =>
    constructor <;> intro hr
    · cases resps with
      | nil => simp [Chan.nextResp] at hr
      | cons r rest =>
        simp [Chan.nextResp] at hr
        subst hr
        simp only [Sink.start_send, hp]
        simp [Sink.poll, Chan.try_send, val_to_params]
    · cases resps with
      | nil =>
        simp only [Sink.start_send, hp]
        simp [Sink.poll, Chan.try_send, val_to_params]
      | cons r rest =>
        simp [Chan.nextResp] at hr
        subst hr
        simp only [Sink.start_send, hp]
        simp [Sink.poll, Chan.try_send, val_to_params]

/-- Witness for C1: scenario B (empty buffer, channel not ready: the item
is reported accepted and sits buffered). -/
theorem start_send_ready_accepts_witness :
    (Sink.start_send (fun n => n) sinkEmpty chanNR ("foo", (1 : Nat))).1
        = Except.ok AsyncSink.ready ∧
    (Sink.start_send (fun n => n) sinkEmpty chanNR ("foo", (1 : Nat))).2.1.buffered
        = some ("foo", Params.array [1]) ∧
    (Sink.start_send (fun n => n) sinkEmpty chanNR ("foo", (1 : Nat))).2.2.sent
        = chanNR.sent :=
  (start_send_ready_accepts (fun n => n) sinkEmpty chanNR "foo" 1
    sinkEmpty chanNR rfl).1 rfl

/-- **C8** — When the underlying `try_send` fails with a transport error
during the drain of a `Full` buffer, the error propagates out of `poll`,
`start_send`, `poll_complete` and `close`, but the buffered item was
already taken out of the slot and is not restored: the buffer ends
`Empty` and the item never reaches the accepted log (it is lost). -/
theorem drain_error_drops_buffered_item {T V : Type} (to_value : T → V)
    (s : Sink V) (c : Chan V) (b : String × Params V) (e : TransportError)
    (rest : List ChanResp) (item : String × T)
    (hb : s.buffered = some b) (hc : c.sendResps = ChanResp.fail e :: rest) :
    ((Sink.poll s c).1 = Except.error e ∧
      (Sink.poll s c).2.1.buffered = none ∧
      (Sink.poll s c).2.2.sent = c.sent) ∧
    ((Sink.start_send to_value s c item).1 = Except.error e ∧
      (Sink.start_send to_value s c item).2.1.buffered = none ∧
      (Sink.start_send to_value s c item).2.2.sent = c.sent) ∧
    ((Sink.poll_complete s c).1 = Except.error e ∧
      (Sink.poll_complete s c).2.1.buffered = none ∧
      (Sink.poll_complete s c).2.2.sent = c.sent) ∧
    ((Sink.close s c).1 = Except.error e ∧
      (Sink.close s c).2.1.buffered = none ∧
      (Sink.close s c).2.2.sent = c.sent) := by
  simp [Sink.poll, Sink.start_send, Sink.poll_complete, Sink.close,
    Chan.try_send, hb, hc]

/-- Witness for C8: the full sink over the failing channel loses
`("foo", [1])` while the error surfaces. -/
theorem drain_error_drops_buffered_item_witness :
    ((Sink.poll sinkFull chanErr).1 = Except.error ⟨7⟩ ∧
      (Sink.poll sinkFull chanErr).2.1.buffered = none ∧
      (Sink.poll sinkFull chanErr).2.2.sent = chanErr.sent) ∧
    ((Sink.start_send (fun n => n) sinkFull chanErr ("bar", (2 : Nat))).1
        = Except.error ⟨7⟩ ∧
      (Sink.start_send (fun n => n) sinkFull chanErr ("bar", (2 : Nat))).2.1.buffered
        = none ∧
      (Sink.start_send (fun n => n) sinkFull chanErr ("bar", (2 : Nat))).2.2.sent
        = chanErr.sent) ∧
    ((Sink.poll_complete sinkFull chanErr).1 = Except.error ⟨7⟩ ∧
      (Sink.poll_complete sinkFull chanErr).2.1.buffered = none ∧
      (Sink.poll_complete sinkFull chanErr).2.2.sent = chanErr.sent) ∧
    ((Sink.close sinkFull chanErr).1 = Except.error ⟨7⟩ ∧
      (Sink.close sinkFull chanErr).2.1.buffered = none ∧
      (Sink.close sinkFull chanErr).2.2.sent = chanErr.sent) :=
  drain_error_drops_buffered_item (fun n => n) sinkFull chanErr
    ("foo", Params.array [1]) ⟨7⟩ [] ("bar", 2) rfl rfl

/-- **C9** — Cloning a `Sink` copies the buffered slot as it is at clone
time; in particular two clones of a `Full` sink each deliver the same
buffered notification to the shared underlying channel when drained in
turn, so it lands in the accepted log twice. -/
theorem clone_duplicates_buffered_item {V : Type} (s : Sink V) (c : Chan V)
    (b : String × Params V)
    (hb : s.buffered = some b) (hc : c.sendResps = []) :
    (Sink.clone s).buffered = s.buffered ∧
    ((Sink.poll s ((Sink.poll (Sink.clone s) c).2.2)).2.2).sent
        = c.sent ++ [b, b] := by
  refine ⟨rfl, ?_⟩
  simp [Sink.clone, Sink.poll, Chan.try_send, hb, hc]

/-- Witness for C9: draining the full sink and its clone over an
always-accepting channel delivers `("foo", [1])` twice. -/
theorem clone_duplicates_buffered_item_witness :
    (Sink.clone sinkFull).buffered = sinkFull.buffered ∧
    ((Sink.poll sinkFull ((Sink.poll (Sink.clone sinkFull) chanAcc).2.2)).2.2).sent
        = chanAcc.sent ++ [("foo", Params.array [1]), ("foo", Params.array [1])] :=
  clone_duplicates_buffered_item sinkFull chanAcc ("foo", Params.array [1]) rfl rfl

/-! Helper lemmas about the drain step, shared by the remaining theorems. -/

/-- The buffered slot never holds more than one item. -/
theorem slotCount_le_one {V : Type} (b : Option (String × Params V)) :
    slotCount b ≤ 1 := by
  cases b <;> simp [slotCount]

/-- A drain step with an empty buffer touches nothing. -/
theorem poll_empty {V : Type} (s : Sink V) (c : Chan V)
    (hb : s.buffered = none) :
    Sink.poll s c = (Except.ok Async.ready, s, c) := by
  simp [Sink.poll, hb]

/-- Every `try_send` call logs its item as an attempt, whatever the
outcome. -/
theorem try_send_attempts {V : Type} (c : Chan V) (item : String × Params V) :
    ((Chan.try_send c item).2).attempts = c.attempts ++ [item] := by
  cases c with
  | mk resps sent atts fr cr =>
    cases resps with
    | nil => rfl
    | cons r rest => cases r <;> rfl

/-- A drain step of a `Full` buffer leaves the channel exactly as the
`try_send` of the buffered item leaves it. -/
theorem poll_chan_full {V : Type} (s : Sink V) (c : Chan V)
    (b : String × Params V) (hb : s.buffered = some b) :
    (Sink.poll s c).2.2 = (c.try_send b).2 := by
  rcases h : c.try_send b with ⟨r, c1⟩
  cases r with
  | error e => simp [Sink.poll, hb, h]
  | ok a => cases a <;> simp [Sink.poll, hb, h]

/-- A drain step only ever appends to the channel's attempt log. -/
theorem poll_attempts_mono {V : Type} (s : Sink V) (c : Chan V) :
    ∃ r, ((Sink.poll s c).2.2).attempts = c.attempts ++ r := by
  cases hb : s.buffered with
  | none => exact ⟨[], by simp [poll_empty s c hb]⟩
  | some b =>
    exact ⟨[b], by rw [poll_chan_full s c b hb, try_send_attempts]⟩

/-- `start_send` only appends to the attempt log beyond what its first
drain step logged. -/
theorem start_send_attempts_mono {T V : Type} (to_value : T → V)
    (s : Sink V) (c : Chan V) (item : String × T) :
    ∃ r, ((Sink.start_send to_value s c item).2.2).attempts
        = ((Sink.poll s c).2.2).attempts ++ r := by
  rcases hp : Sink.poll s c with ⟨r1, s1, c1⟩
  cases r1 with
  | error e => exact ⟨[], by simp [Sink.start_send, hp]⟩
  | ok a =>
    cases a with
    | notReady => exact ⟨[], by simp [Sink.start_send, hp]⟩
    | ready =>
      obtain ⟨r, hr⟩ := poll_attempts_mono { s1 with buffered := some (item.1, val_to_params to_value item.2) } c1
      refine ⟨r, ?_⟩
      rcases hq : Sink.poll { s1 with buffered := some (item.1, val_to_params to_value item.2) } c1
        with ⟨r2, s3, c2⟩
      rw [hq] at hr
      cases r2 with
      | error e =>
        simp at hr
        simp [Sink.start_send, hp, hq, hr]
      | ok a2 =>
        simp at hr
        simp [Sink.start_send, hp, hq, hr]

/-- `poll_complete` leaves the channel exactly as its drain step left
it (the underlying flush does not change the modelled channel state). -/
theorem poll_complete_chan {V : Type} (s : Sink V) (c : Chan V) :
    (Sink.poll_complete s c).2.2 = (Sink.poll s c).2.2 := by
  rcases hp : Sink.poll s c with ⟨r1, s1, c1⟩
  cases r1 <;> simp [Sink.poll_complete, hp, Chan.poll_complete]

/-- `close` leaves the channel exactly as its drain step left it. -/
theorem close_chan {V : Type} (s : Sink V) (c : Chan V) :
    (Sink.close s c).2.2 = (Sink.poll s c).2.2 := by
  rcases hp : Sink.poll s c with ⟨r1, s1, c1⟩
  cases r1 <;> simp [Sink.close, hp, Chan.close]

/-- **C4** — Across `poll`, `start_send`, `poll_complete` and `close`,
the buffered slot ends with at most one item, and whenever the slot was
occupied by `b` at entry, the operation's very first channel interaction
is a `try_send` attempt of `b` (the attempt log continues with `b`): no
operation replaces a non-empty slot without first attempting to flush
it. -/
theorem buffered_slot_invariant {T V : Type} (to_value : T → V)
    (s : Sink V) (c : Chan V) (item : String × T) :
    (slotCount (Sink.poll s c).2.1.buffered ≤ 1 ∧
     slotCount (Sink.start_send to_value s c item).2.1.buffered ≤ 1 ∧
     slotCount (Sink.poll_complete s c).2.1.buffered ≤ 1 ∧
     slotCount (Sink.close s c).2.1.buffered ≤ 1) ∧
    (∀ b, s.buffered = some b →
      (∃ r1, ((Sink.poll s c).2.2).attempts = c.attempts ++ b :: r1) ∧
      (∃ r2, ((Sink.start_send to_value s c item).2.2).attempts
          = c.attempts ++ b :: r2) ∧
      (∃ r3, ((Sink.poll_complete s c).2.2).attempts
          = c.attempts ++ b :: r3) ∧
      (∃ r4, ((Sink.close s c).2.2).attempts = c.attempts ++ b :: r4)) := by
  constructor
  · exact ⟨slotCount_le_one _, slotCount_le_one _, slotCount_le_one _,
      slotCount_le_one _⟩
  · intro b hb
    have hfirst : ((Sink.poll s c).2.2).attempts = c.attempts ++ [b] := by
      rw [poll_chan_full s c b hb, try_send_attempts]
    refine ⟨⟨[], by simp [hfirst]⟩, ?_, ?_, ?_⟩
    · obtain ⟨r, hr⟩ := start_send_attempts_mono to_value s c item
      exact ⟨r, by simp [hr, hfirst]⟩
    · exact ⟨[], by simp [poll_complete_chan, hfirst]⟩
    · exact ⟨[], by simp [close_chan, hfirst]⟩

/-- Witness for C4 at the full sink over the not-ready channel. -/
theorem buffered_slot_invariant_witness :
    slotCount (Sink.start_send (fun n => n) sinkFull chanNR
        ("bar", (2 : Nat))).2.1.buffered ≤ 1 ∧
    (∃ r2, ((Sink.start_send (fun n => n) sinkFull chanNR
        ("bar", (2 : Nat))).2.2).attempts
      = chanNR.attempts ++ ("foo", Params.array [1]) :: r2) :=
  ⟨(buffered_slot_invariant (fun n => n) sinkFull chanNR ("bar", 2)).1.2.1,
   ((buffered_slot_invariant (fun n => n) sinkFull chanNR ("bar", 2)).2
      ("foo", Params.array [1]) rfl).2.1⟩

/-- One `start_send` step over an always-accepting channel: the item is
reported accepted, the buffer ends empty, the serialized item is appended
to the accepted log, and the channel keeps accepting. -/
theorem start_send_empty_accepting {T V : Type} (to_value : T → V)
    (s : Sink V) (c : Chan V) (item : String × T)
    (hb : s.buffered = none)
    (hc : ∀ r ∈ c.sendResps, r = ChanResp.accepted) :
    (Sink.start_send to_value s c item).1 = Except.ok AsyncSink.ready ∧
    (Sink.start_send to_value s c item).2.1.buffered = none ∧
    (Sink.start_send to_value s c item).2.2.sent
        = c.sent ++ [(item.1, val_to_params to_value item.2)] ∧
    (∀ r ∈ (Sink.start_send to_value s c item).2.2.sendResps,
        r = ChanResp.accepted) := by
  have hp : Sink.poll s c = (Except.ok Async.ready, s, c) := poll_empty s c hb
  cases c with
  | mk resps sent atts fr cr =>
    cases resps with
    | nil =>
      simp only [Sink.start_send, hp]
      simp [Sink.poll, Chan.try_send, val_to_params]
    | cons r rest =>
      have hr : r = ChanResp.accepted := hc r (by simp)
      subst hr
      simp only [Sink.start_send, hp]
      simp [Sink.poll, Chan.try_send, val_to_params]
      intro x hx
      exact hc x (by simp [hx])

/-- **C3** — Starting from an empty buffer over a channel that accepts
every `try_send` (and never errors), a finite sequence of `start_send`
calls hands every submitted item to the underlying channel exactly once
and in submission order: the accepted log ends extended by exactly the
serialized items, in order, and the buffer ends empty. -/
theorem start_send_sequence_in_order {T V : Type} (to_value : T → V)
    (items : List (String × T)) (s : Sink V) (c : Chan V)
    (hb : s.buffered = none)
    (hc : ∀ r ∈ c.sendResps, r = ChanResp.accepted) :
    ∃ s' c', run_start_sends to_value items s c = Except.ok (s', c') ∧
      s'.buffered = none ∧
      c'.sent = c.sent
          ++ items.map (fun it => (it.1, val_to_params to_value it.2)) := by
  induction items generalizing s c with
  | nil => exact ⟨s, c, rfl, hb, by simp [run_start_sends]⟩
  | cons item rest ih =>
    obtain ⟨h1, h2, h3, h4⟩ := start_send_empty_accepting to_value s c item hb hc
    rcases hss : Sink.start_send to_value s c item with ⟨r, s1, c1⟩
    rw [hss] at h1 h2 h3 h4
    simp at h1 h2 h3 h4
    subst h1
    obtain ⟨s', c', hrun, hb', hsent⟩ := ih s1 c1 h2 h4
    refine ⟨s', c', ?_, hb', ?_⟩
    · simp [run_start_sends, hss, hrun]
    · simp [hsent, h3]

/-- Witness for C3: two items over the always-accepting channel are both
delivered, in order. -/
theorem start_send_sequence_in_order_witness :
    ∃ s' c',
      run_start_sends (fun n => n) [("a", (1 : Nat)), ("b", 2)]
          sinkEmpty chanAcc = Except.ok (s', c') ∧
      s'.buffered = none ∧
      c'.sent = chanAcc.sent
          ++ [("a", (1 : Nat)), ("b", 2)].map
              (fun it => (it.1, val_to_params (fun n => n) it.2)) :=
  start_send_sequence_in_order (fun n => n) [("a", 1), ("b", 2)]
    sinkEmpty chanAcc rfl (by simp [chanAcc])

end PubsubMacros
